import Mathlib

/-!
# Batch image removal (`cli/command/image/remove.go`)

A shallow embedding of `runRemove` and of the collaborators it talks to
(the API client's `ImageRemove`, the two output streams, `fmt.Fprintln`,
`strings.Join`, `errdefs.IsNotFound`), followed by the properties of the
batch: which calls are made, what is printed, and when an error is returned.

Go's `error` result of `runRemove` is an `Option String`: `none` is `nil`,
`some msg` is `errors.New(msg)`.  A stream is the list of the writes it has
received, oldest first.
-/

namespace Image

/-! ## Data model -/

/-- The command's flag record, `removeOptions` (remove.go:17-20). -/
structure removeOptions where
  force : Bool
  noPrune : Bool
  deriving DecidableEq, Repr

/-- The options record handed to the API, `image.RemoveOptions`. -/
structure RemoveOptions where
  Force : Bool
  PruneChildren : Bool
  deriving DecidableEq, Repr

/-- One record of `[]image.DeleteResponse`. -/
structure DeleteResponse where
  Deleted : String
  Untagged : String
  deriving DecidableEq, Repr

/-- A non-nil Go `error` coming back from the API, seen through the two
observations `runRemove` makes of it: `err.Error()` and
`errdefs.IsNotFound(err)`. -/
structure RemoteError where
  Error : String
  IsNotFound : Bool
  deriving DecidableEq, Repr

/-- The pair `(dels, err)` returned by `ImageRemove`; `err = none` is Go's
`nil`.  Go allows a non-empty `dels` next to a non-nil `err`. -/
abbrev RemoveResult := List DeleteResponse × Option RemoteError

/-- One entry of the call trace: the arguments `ImageRemove` was given and
what it answered. -/
structure Call where
  img : String
  options : RemoveOptions
  dels : List DeleteResponse
  err : Option RemoteError
  deriving DecidableEq, Repr

/-- The answer of a recorded call. -/
def Call.result (c : Call) : RemoveResult := (c.dels, c.err)

/-- The remote service: any deterministic state machine answering
`ImageRemove(ctx, img, options)` from its current state `σ`. -/
abbrev APIClient (σ : Type) := σ → String → RemoveOptions → RemoveResult × σ

/-- Everything `dockerCLI` gives access to: `Client()` with the remote's
state, the streams `Out()` and `Err()`, and the trace of the `ImageRemove`
calls made so far (a ghost field, kept only to state properties). -/
structure Cli (σ : Type) where
  Client : APIClient σ
  remote : σ
  Out : List String
  Err : List String
  calls : List Call

/-! ## Library functions used by `runRemove` -/

/-- The function `strings.Join(elems, sep)`: the empty string for no
element, the element itself for one, otherwise the first element followed by
`sep` and the next element for each remaining one. -/
def Join (elems : List String) (sep : String) : String :=
  match elems with
  | [] => ""
  | [e] => e
  | e :: rest => rest.foldl (fun b s => b ++ sep ++ s) e

/-- The function `fmt.Fprintln(w, args...)` on string operands: the operands
separated by single spaces, a newline appended, delivered in one write. -/
def Fprintln (w : List String) (args : List String) : List String :=
  w ++ [" ".intercalate args ++ "\n"]

/-! ## `runRemove` -/

/-- The call `apiClient.ImageRemove(ctx, img, options)` (remove.go:65): the
remote answers and moves to its next state; the call is appended to the
trace. -/
def ImageRemove {σ : Type} (cli : Cli σ) (img : String) (options : RemoveOptions) :
    RemoveResult × Cli σ :=
  let r := cli.Client cli.remote img options
  (r.1, { cli with remote := r.2, calls := cli.calls ++ [⟨img, options, r.1.1, r.1.2⟩] })

/-- The inner loop `for _, del := range dels` (remove.go:72-78). -/
def printDels (out : List String) (dels : List DeleteResponse) : List String :=
  dels.foldl
    (fun o del =>
      if del.Deleted ≠ "" then Fprintln o ["Deleted:", del.Deleted]
      else Fprintln o ["Untagged:", del.Untagged])
    out

/-- The local variables of `runRemove` that live across loop iterations,
together with the world they act on. -/
structure LoopState (σ : Type) where
  errs : List String
  fatalErr : Bool
  dockerCLI : Cli σ

/-- One iteration of `for _, img := range images` (remove.go:65-79). -/
def loopBody {σ : Type} (options : RemoveOptions) (st : LoopState σ) (img : String) :
    LoopState σ :=
  match ImageRemove st.dockerCLI img options with
  | ((_, some err), cli) =>
    { errs := st.errs ++ [err.Error]
      fatalErr := if !err.IsNotFound then true else st.fatalErr
      dockerCLI := cli }
  | ((dels, none), cli) =>
    { errs := st.errs
      fatalErr := st.fatalErr
      dockerCLI := { cli with Out := printDels cli.Out dels } }

/-- The loop of remove.go:62-80, started from `errs = nil`,
`fatalErr = false`. -/
def removeLoop {σ : Type} (dockerCLI : Cli σ) (options : RemoveOptions)
    (images : List String) : LoopState σ :=
  images.foldl (loopBody options) { errs := [], fatalErr := false, dockerCLI := dockerCLI }

/-- The function `runRemove` (remove.go:54-90). -/
def runRemove {σ : Type} (dockerCLI : Cli σ) (opts : removeOptions) (images : List String) :
    Option String × Cli σ :=
  let options : RemoveOptions := { Force := opts.force, PruneChildren := !opts.noPrune }
  let st := removeLoop dockerCLI options images
  if st.errs.length > 0 then
    let msg := Join st.errs "\n"
    if !opts.force || st.fatalErr then
      (some msg, st.dockerCLI)
    else
      (none, { st.dockerCLI with Err := Fprintln st.dockerCLI.Err [msg] })
  else
    (none, st.dockerCLI)

/-- The flag defaults registered by `NewRemoveCommand` (remove.go:41-42):
`--force` is `false`, `--no-prune` is `false`. -/
def defaultOptions : removeOptions := { force := false, noPrune := false }

/-! ## Observations on a run

The vocabulary in which the properties are stated: what the calls of a
trace answered, which text belongs to an answer. -/

/-- The `Error()` strings of the failed calls among `rs`, in order. -/
def failureMessages (rs : List RemoveResult) : List String :=
  (rs.filterMap Prod.snd).map RemoteError.Error

/-- Some failed call among `rs` is not classified as not-found. -/
def hasFatal (rs : List RemoveResult) : Bool :=
  (rs.filterMap Prod.snd).any (fun e => !e.IsNotFound)

/-- The output line of one deletion record. -/
def lineOf (d : DeleteResponse) : String :=
  if d.Deleted ≠ "" then "Deleted: " ++ d.Deleted ++ "\n"
  else "Untagged: " ++ d.Untagged ++ "\n"

/-- The output lines owed to one answer: one per record of a successful
call, none for a failed call. -/
def resultLines (r : RemoveResult) : List String :=
  match r.2 with
  | none => r.1.map lineOf
  | some _ => []

/-- The output lines owed to a sequence of answers. -/
def outputLines (rs : List RemoveResult) : List String :=
  (rs.map resultLines).flatten

/-- The answers the remote gives when asked about `images` in order,
starting from state `s`. -/
def answers {σ : Type} (client : APIClient σ) (s : σ) (options : RemoveOptions) :
    List String → List RemoveResult
  | [] => []
  | img :: rest => (client s img options).1 :: answers client (client s img options).2 options rest

/-- The calls `runRemove` adds to the trace. -/
def callsMade {σ : Type} (dockerCLI : Cli σ) (opts : removeOptions) (images : List String) :
    List Call :=
  (runRemove dockerCLI opts images).2.calls.drop dockerCLI.calls.length

/-- The answers `runRemove` receives, in call order. -/
def resultsSeen {σ : Type} (dockerCLI : Cli σ) (opts : removeOptions) (images : List String) :
    List RemoveResult :=
  (callsMade dockerCLI opts images).map Call.result

/-- The writes `runRemove` adds to the output stream. -/
def outWritten {σ : Type} (dockerCLI : Cli σ) (opts : removeOptions) (images : List String) :
    List String :=
  (runRemove dockerCLI opts images).2.Out.drop dockerCLI.Out.length

/-- The writes `runRemove` adds to the error stream. -/
def errWritten {σ : Type} (dockerCLI : Cli σ) (opts : removeOptions) (images : List String) :
    List String :=
  (runRemove dockerCLI opts images).2.Err.drop dockerCLI.Err.length

/-- The calls of a trace that succeeded. -/
def succeeded (cs : List Call) : List Call :=
  cs.filter (fun c => c.err.isNone)

/-- The string `sub` occurs in `s`. -/
def Contains (s sub : String) : Prop :=
  ∃ pre post : String, s = pre ++ sub ++ post

/-! ## A concrete remote

Used to instantiate the theorems: `img-a` is absent, `img-b` is deleted,
`img-c` is in use (the remote reports the failure together with a record),
`img-d` is untagged and then deleted, `img-e` fails with an empty not-found
message, `img-u` comes back as a record with both fields empty; any other
image is untagged. -/

/-- The answers of the concrete remote. -/
def demoRemote (img : String) : RemoveResult :=
  if img = "img-a" then
    ([], some { Error := "No such image: img-a", IsNotFound := true })
  else if img = "img-b" then
    ([{ Deleted := "img-b", Untagged := "" }], none)
  else if img = "img-c" then
    ([{ Deleted := "sha256:cc", Untagged := "" }],
      some { Error := "conflict: img-c is in use", IsNotFound := false })
  else if img = "img-d" then
    ([{ Deleted := "", Untagged := "img-d:latest" }, { Deleted := "sha256:dd", Untagged := "" }],
      none)
  else if img = "img-e" then
    ([], some { Error := "", IsNotFound := true })
  else if img = "img-u" then
    ([{ Deleted := "", Untagged := "" }], none)
  else
    ([{ Deleted := "", Untagged := img }], none)

/-- The concrete remote as a stateless API client. -/
def demoClient : APIClient Unit := fun s img _ => (demoRemote img, s)

/-- A fresh world around the concrete remote. -/
def demoCli : Cli Unit :=
  { Client := demoClient, remote := (), Out := [], Err := [], calls := [] }

/-! ## A remote with a history

The answer of this remote depends on the calls it has already received: the
first call finds the daemon not reachable yet and fails, every later call
deletes the image it names. -/

/-- The remote that fails its first call; its state counts the calls. -/
def warmupClient : APIClient Nat := fun n img _ =>
  if n = 0 then
    (([], some { Error := "Cannot connect to the Docker daemon", IsNotFound := false }), 1)
  else
    (([{ Deleted := img, Untagged := "" }], none), n + 1)

/-- A fresh world around the remote that fails its first call. -/
def warmupCli : Cli Nat :=
  { Client := warmupClient, remote := 0, Out := [], Err := [], calls := [] }

/-! ## Specification records -/

/-- What the loop has done after running over `images` from any state. -/
structure LoopSpec {σ : Type} (options : RemoveOptions) (images : List String)
    (st fin : LoopState σ) (cs : List Call) : Prop where
  calls_eq : fin.dockerCLI.calls = st.dockerCLI.calls ++ cs
  imgs_eq : cs.map Call.img = images
  options_eq : cs.map Call.options = List.replicate images.length options
  errs_eq : fin.errs = st.errs ++ failureMessages (cs.map Call.result)
  fatal_eq : fin.fatalErr = (st.fatalErr || hasFatal (cs.map Call.result))
  out_eq : fin.dockerCLI.Out = st.dockerCLI.Out ++ outputLines (cs.map Call.result)
  err_eq : fin.dockerCLI.Err = st.dockerCLI.Err
  client_eq : fin.dockerCLI.Client = st.dockerCLI.Client
  results_eq : cs.map Call.result = answers st.dockerCLI.Client st.dockerCLI.remote options images

/-- What one invocation of `runRemove` has done, in terms of the calls it
made. -/
structure RunSpec {σ : Type} (dockerCLI : Cli σ) (opts : removeOptions)
    (images : List String) (cs : List Call) : Prop where
  calls_eq : (runRemove dockerCLI opts images).2.calls = dockerCLI.calls ++ cs
  imgs_eq : cs.map Call.img = images
  options_eq : cs.map Call.options =
    List.replicate images.length { Force := opts.force, PruneChildren := !opts.noPrune }
  results_eq : cs.map Call.result = answers dockerCLI.Client dockerCLI.remote
    { Force := opts.force, PruneChildren := !opts.noPrune } images
  ret_eq : (runRemove dockerCLI opts images).1 =
    if failureMessages (cs.map Call.result) ≠ [] ∧
        (opts.force = false ∨ hasFatal (cs.map Call.result) = true)
    then some ("\n".intercalate (failureMessages (cs.map Call.result))) else none
  out_eq : (runRemove dockerCLI opts images).2.Out =
    dockerCLI.Out ++ outputLines (cs.map Call.result)
  err_eq : (runRemove dockerCLI opts images).2.Err =
    dockerCLI.Err ++
      if failureMessages (cs.map Call.result) ≠ [] ∧
          ¬ (opts.force = false ∨ hasFatal (cs.map Call.result) = true)
      then ["\n".intercalate (failureMessages (cs.map Call.result)) ++ "\n"] else []

/-! ## The loop -/

theorem Fprintln_deleted (o : List String) (x : String) :
    Fprintln o ["Deleted:", x] = o ++ ["Deleted: " ++ x ++ "\n"] := by
  simp [Fprintln, String.intercalate, String.intercalate.go]

theorem Fprintln_untagged (o : List String) (x : String) :
    Fprintln o ["Untagged:", x] = o ++ ["Untagged: " ++ x ++ "\n"] := by
  simp [Fprintln, String.intercalate, String.intercalate.go]

theorem Fprintln_single (o : List String) (x : String) :
    Fprintln o [x] = o ++ [x ++ "\n"] := by
  simp [Fprintln, String.intercalate, String.intercalate.go]

/-- The inner loop appends one line per record, in record order. -/
theorem printDels_eq (out : List String) (dels : List DeleteResponse) :
    printDels out dels = out ++ dels.map lineOf := by
  unfold printDels
  induction dels generalizing out with
  | nil => simp
  | cons d ds ih =>
    rw [List.foldl_cons, ih]
    by_cases h : d.Deleted = ""
    · simp [h, lineOf, Fprintln_untagged]
    · simp [h, lineOf, Fprintln_deleted]

theorem failureMessages_cons_some (dels : List DeleteResponse) (e : RemoteError)
    (rs : List RemoveResult) :
    failureMessages ((dels, some e) :: rs) = e.Error :: failureMessages rs := by
  simp [failureMessages]

theorem failureMessages_cons_none (dels : List DeleteResponse) (rs : List RemoveResult) :
    failureMessages ((dels, none) :: rs) = failureMessages rs := by
  simp [failureMessages]

theorem hasFatal_cons_some (dels : List DeleteResponse) (e : RemoteError)
    (rs : List RemoveResult) :
    hasFatal ((dels, some e) :: rs) = (!e.IsNotFound || hasFatal rs) := by
  simp [hasFatal]

theorem hasFatal_cons_none (dels : List DeleteResponse) (rs : List RemoveResult) :
    hasFatal ((dels, none) :: rs) = hasFatal rs := by
  simp [hasFatal]

theorem outputLines_cons_some (dels : List DeleteResponse) (e : RemoteError)
    (rs : List RemoveResult) :
    outputLines ((dels, some e) :: rs) = outputLines rs := by
  simp [outputLines, resultLines]

theorem outputLines_cons_none (dels : List DeleteResponse) (rs : List RemoveResult) :
    outputLines ((dels, none) :: rs) = dels.map lineOf ++ outputLines rs := by
  simp [outputLines, resultLines]

theorem foldl_loopBody_spec {σ : Type} (options : RemoveOptions) (images : List String) :
    ∀ st : LoopState σ, ∃ cs, LoopSpec options images st (images.foldl (loopBody options) st) cs := by
  induction images with
  | nil =>
    intro st
    exact ⟨[], by constructor <;> simp [failureMessages, hasFatal, outputLines, answers]⟩
  | cons img rest ih =>
    intro st
    obtain ⟨cs, h⟩ := ih (loopBody options st img)
    rw [List.foldl_cons]
    generalize List.foldl (loopBody options) (loopBody options st img) rest = fin at h
    obtain ⟨h1, h2, h3, h4, h5, h6, h7, h8, h9⟩ := h
    rcases hr : st.dockerCLI.Client st.dockerCLI.remote img options with ⟨⟨dels, e⟩, s⟩
    refine ⟨⟨img, options, dels, e⟩ :: cs, ?_⟩
    cases e with
    | none =>
      have hb : loopBody options st img =
          { errs := st.errs, fatalErr := st.fatalErr,
            dockerCLI := { st.dockerCLI with
              remote := s, calls := st.dockerCLI.calls ++ [⟨img, options, dels, none⟩],
              Out := printDels st.dockerCLI.Out dels } } := by
        simp [loopBody, ImageRemove, hr]
      rw [hb] at h1 h4 h5 h6 h7 h8 h9
      constructor
      · simpa using h1
      · simp [h2]
      · simp [h3, List.replicate_succ]
      · simpa [failureMessages_cons_none, Call.result] using h4
      · simpa [hasFatal_cons_none, Call.result] using h5
      · simpa [outputLines_cons_none, Call.result, printDels_eq] using h6
      · simpa using h7
      · simpa using h8
      · simpa [answers, hr, Call.result] using h9
    | some err =>
      have hb : loopBody options st img =
          { errs := st.errs ++ [err.Error],
            fatalErr := if !err.IsNotFound then true else st.fatalErr,
            dockerCLI := { st.dockerCLI with
              remote := s, calls := st.dockerCLI.calls ++ [⟨img, options, dels, some err⟩] } } := by
        simp [loopBody, ImageRemove, hr]
      rw [hb] at h1 h4 h5 h6 h7 h8 h9
      constructor
      · simpa using h1
      · simp [h2]
      · simp [h3, List.replicate_succ]
      · simpa [failureMessages_cons_some, Call.result] using h4
      · rw [h5]
        obtain ⟨m, nf⟩ := err
        cases nf <;> simp [hasFatal_cons_some, Call.result]
      · simpa [outputLines_cons_some, Call.result] using h6
      · simpa using h7
      · simpa using h8
      · simpa [answers, hr, Call.result] using h9

theorem Join_foldl (sep : String) (rest : List String) (acc : String) :
    rest.foldl (fun b s => b ++ sep ++ s) acc = String.intercalate.go acc sep rest := by
  induction rest generalizing acc with
  | nil => simp [String.intercalate.go]
  | cons a rest ih => simp [String.intercalate.go, ih]

/-- The function `Join` is the separator-interspersed concatenation. -/
theorem Join_eq_intercalate (elems : List String) (sep : String) :
    Join elems sep = sep.intercalate elems := by
  match elems with
  | [] => simp [Join, String.intercalate]
  | [e] => simp [Join, String.intercalate, String.intercalate.go]
  | e :: f :: rest =>
    simp only [Join, String.intercalate]
    exact Join_foldl sep (f :: rest) e

theorem runRemove_spec_exists {σ : Type} (dockerCLI : Cli σ) (opts : removeOptions)
    (images : List String) : ∃ cs, RunSpec dockerCLI opts images cs := by
  obtain ⟨cs, h⟩ := foldl_loopBody_spec
    { Force := opts.force, PruneChildren := !opts.noPrune } images
    { errs := [], fatalErr := false, dockerCLI := dockerCLI }
  obtain ⟨h1, h2, h3, h4, h5, h6, h7, _, h9⟩ := h
  refine ⟨cs, ?_⟩
  simp only [List.nil_append, Bool.false_or] at h1 h4 h5 h6 h7 h9
  have hrun : runRemove dockerCLI opts images =
      (let st := List.foldl (loopBody { Force := opts.force, PruneChildren := !opts.noPrune })
          { errs := [], fatalErr := false, dockerCLI := dockerCLI } images
       if st.errs.length > 0 then
         if !opts.force || st.fatalErr then (some (Join st.errs "\n"), st.dockerCLI)
         else (none, { st.dockerCLI with Err := Fprintln st.dockerCLI.Err [Join st.errs "\n"] })
       else (none, st.dockerCLI)) := rfl
  generalize List.foldl (loopBody { Force := opts.force, PruneChildren := !opts.noPrune })
    { errs := [], fatalErr := false, dockerCLI := dockerCLI } images = fin at h1 h4 h5 h6 h7 hrun
  obtain ⟨errs, fatalErr, cli⟩ := fin
  simp only at h1 h4 h5 h6 h7 hrun
  subst h4 h5
  refine ⟨?_, h2, h3, h9, ?_, ?_, ?_⟩ <;> rw [hrun] <;>
    generalize failureMessages (cs.map Call.result) = ms <;>
    generalize hasFatal (cs.map Call.result) = ft <;>
    cases ms <;> cases hf : opts.force <;> cases ft <;>
    simp [h1, h6, h7, Join_eq_intercalate, Fprintln_single]

/-- The specification of a run holds of the calls it made. -/
theorem runRemove_spec {σ : Type} (dockerCLI : Cli σ) (opts : removeOptions)
    (images : List String) : RunSpec dockerCLI opts images (callsMade dockerCLI opts images) := by
  obtain ⟨cs, h⟩ := runRemove_spec_exists dockerCLI opts images
  have : callsMade dockerCLI opts images = cs := by
    simp [callsMade, h.calls_eq]
  rw [this]
  exact h

/-! ## Reading the observations off the call trace -/

theorem failureMessages_map_result (cs : List Call) :
    failureMessages (cs.map Call.result) = (cs.filterMap Call.err).map RemoteError.Error := by
  induction cs with
  | nil => simp [failureMessages]
  | cons c cs ih =>
    obtain ⟨i, o, d, e⟩ := c
    cases e with
    | none => simpa [Call.result, failureMessages_cons_none] using ih
    | some e => simpa [Call.result, failureMessages_cons_some] using ih

theorem failureMessages_ne_nil_iff (cs : List Call) :
    failureMessages (cs.map Call.result) ≠ [] ↔ ∃ c ∈ cs, c.err ≠ none := by
  induction cs with
  | nil => simp [failureMessages]
  | cons c cs ih =>
    obtain ⟨i, o, d, e⟩ := c
    cases e with
    | none => simpa [Call.result, failureMessages_cons_none] using ih
    | some e => simp [Call.result, failureMessages_cons_some]

theorem hasFatal_iff (cs : List Call) :
    hasFatal (cs.map Call.result) = true ↔
      ∃ c ∈ cs, ∃ e, c.err = some e ∧ e.IsNotFound = false := by
  induction cs with
  | nil => simp [hasFatal]
  | cons c cs ih =>
    obtain ⟨i, o, d, e⟩ := c
    cases e with
    | none => simpa [Call.result, hasFatal_cons_none] using ih
    | some e => simp [Call.result, hasFatal_cons_some, ih]

theorem hasFatal_eq_any (cs : List Call) :
    hasFatal (cs.map Call.result) = (cs.filterMap Call.err).any (fun e => !e.IsNotFound) := by
  induction cs with
  | nil => simp [hasFatal]
  | cons c cs ih =>
    obtain ⟨i, o, d, e⟩ := c
    cases e with
    | none => simpa [Call.result, hasFatal_cons_none] using ih
    | some e => simp [Call.result, hasFatal_cons_some, ih]

theorem outputLines_of_success (cs : List Call) (h : ∀ c ∈ cs, c.err = none) :
    outputLines (cs.map Call.result) = (cs.map (fun c => c.dels.map lineOf)).flatten := by
  induction cs with
  | nil => simp [outputLines]
  | cons c cs ih =>
    obtain ⟨i, o, d, e⟩ := c
    have he : e = none := by simpa using h ⟨i, o, d, e⟩ (List.mem_cons_self _ _)
    subst he
    have ih := ih (fun c hc => h c (List.mem_cons_of_mem _ hc))
    simp [Call.result, outputLines_cons_none, ih]

theorem failureMessages_of_success (cs : List Call) (h : ∀ c ∈ cs, c.err = none) :
    failureMessages (cs.map Call.result) = [] := by
  by_contra hne
  obtain ⟨c, hc, he⟩ := (failureMessages_ne_nil_iff cs).1 hne
  exact he (h c hc)

theorem succeeded_err (cs : List Call) : ∀ c ∈ succeeded cs, c.err = none := by
  intro c hc
  have := (List.mem_filter.1 hc).2
  cases h : c.err <;> simp_all

theorem outputLines_succeeded (cs : List Call) :
    outputLines ((succeeded cs).map Call.result) = outputLines (cs.map Call.result) := by
  induction cs with
  | nil => simp [succeeded]
  | cons c cs ih =>
    obtain ⟨i, o, d, e⟩ := c
    cases e with
    | none =>
      simpa [succeeded, List.filter_cons, Call.result, outputLines_cons_none] using ih
    | some e =>
      simpa [succeeded, List.filter_cons, Call.result, outputLines_cons_some] using ih

theorem contains_go (sep y : String) :
    ∀ (l : List String) (acc : String),
      (Contains acc y ∨ y ∈ l) → Contains (String.intercalate.go acc sep l) y
  | [], acc, h => by simpa [String.intercalate.go] using h
  | b :: l, acc, h => by
    rw [String.intercalate.go]
    apply contains_go sep y l
    rcases h with ⟨p, q, hpq⟩ | h
    · left
      exact ⟨p, q ++ sep ++ b, by rw [hpq]; simp [String.append_assoc]⟩
    · rcases List.mem_cons.1 h with rfl | h
      · left
        exact ⟨acc ++ sep, "", by simp⟩
      · right
        exact h

/-- Every joined element occurs in the joined string. -/
theorem contains_intercalate (sep y : String) (l : List String) (h : y ∈ l) :
    Contains (sep.intercalate l) y := by
  cases l with
  | nil => simp at h
  | cons a l =>
    rw [String.intercalate]
    apply contains_go
    rcases List.mem_cons.1 h with rfl | h
    · left
      exact ⟨"", "", by simp⟩
    · right
      exact h

/-! ## Properties of `runRemove` -/

/-- C1: `runRemove` returns a non-nil error if and only if some `ImageRemove`
call failed and, in addition, `force` is off or some failure is not
classified as not-found.  Whether a call failed is read off its `err`, not
off its message: a lone not-found failure with the empty message, run
without `force`, yields the error with the empty message. -/
theorem runRemove_error_iff {σ : Type} (dockerCLI : Cli σ) (opts : removeOptions)
    (images : List String) :
    ((runRemove dockerCLI opts images).1 ≠ none ↔
      (∃ c ∈ callsMade dockerCLI opts images, c.err ≠ none) ∧
        (opts.force = false ∨
          ∃ c ∈ callsMade dockerCLI opts images, ∃ e, c.err = some e ∧ e.IsNotFound = false)) ∧
    (runRemove demoCli { force := false, noPrune := false } ["img-e"]).1 = some "" := by
  refine ⟨?_, by decide⟩
  have h := runRemove_spec dockerCLI opts images
  rw [h.ret_eq, ← failureMessages_ne_nil_iff, ← hasFatal_iff]
  split <;> simp_all

/-- C2: when `runRemove` returns an error, its message is the `Error()`
strings of the failed calls, taken in call order, which is the order of the
identifiers in the input list, joined by single newlines. -/
theorem runRemove_error_message {σ : Type} (dockerCLI : Cli σ) (opts : removeOptions)
    (images : List String) (msg : String)
    (h : (runRemove dockerCLI opts images).1 = some msg) :
    (callsMade dockerCLI opts images).map Call.img = images ∧
      msg = "\n".intercalate
        (((callsMade dockerCLI opts images).filterMap Call.err).map RemoteError.Error) := by
  have hs := runRemove_spec dockerCLI opts images
  refine ⟨hs.imgs_eq, ?_⟩
  rw [hs.ret_eq, failureMessages_map_result] at h
  split at h
  · exact (Option.some.inj h).symm
  · exact absurd h (by simp)

theorem runRemove_error_message_witness :
    (runRemove demoCli { force := true, noPrune := false } ["img-a", "img-b", "img-c"]).1 =
        some "No such image: img-a\nconflict: img-c is in use" ∧
      ((callsMade demoCli { force := true, noPrune := false }
          ["img-a", "img-b", "img-c"]).map Call.img = ["img-a", "img-b", "img-c"] ∧
        "No such image: img-a\nconflict: img-c is in use" = "\n".intercalate
          (((callsMade demoCli { force := true, noPrune := false }
            ["img-a", "img-b", "img-c"]).filterMap Call.err).map RemoteError.Error)) :=
  ⟨by decide, runRemove_error_message demoCli { force := true, noPrune := false }
    ["img-a", "img-b", "img-c"] _ (by decide)⟩

/-- C3: the error stream is written exactly in the force-tolerant case.
Every identifier of the input list is called, in order, and answered by the
remote.  With `force` on, at least one failed call and every failure
not-found, `runRemove` returns nil and the error stream receives one write:
the failures' messages in input order joined by newlines, then a newline.
In every other case the error stream receives nothing.  Earlier content of
the stream is kept.  On the concrete remote: with `force`, `img-a` absent
next to a deleted `img-b` writes the not-found message and a newline and
returns nil; two absent images write both messages in input order; without
`force`, with a failure that is not not-found, or with no failure, nothing
is written. -/
theorem runRemove_err_sink {σ : Type} (dockerCLI : Cli σ) (opts : removeOptions)
    (images : List String) :
    ((runRemove dockerCLI opts images).2.Err =
        dockerCLI.Err ++ errWritten dockerCLI opts images ∧
      (callsMade dockerCLI opts images).map Call.img = images ∧
      (callsMade dockerCLI opts images).map Call.result =
        answers dockerCLI.Client dockerCLI.remote
          { Force := opts.force, PruneChildren := !opts.noPrune } images ∧
      if opts.force = true ∧ (callsMade dockerCLI opts images).filterMap Call.err ≠ [] ∧
          ((callsMade dockerCLI opts images).filterMap Call.err).all
            (fun e => e.IsNotFound) = true
      then
        (runRemove dockerCLI opts images).1 = none ∧
          errWritten dockerCLI opts images =
            ["\n".intercalate
              (((callsMade dockerCLI opts images).filterMap Call.err).map RemoteError.Error)
              ++ "\n"]
      else errWritten dockerCLI opts images = []) ∧
    ((runRemove demoCli { force := true, noPrune := false } ["img-a", "img-b"]).1 = none ∧
      (runRemove demoCli { force := true, noPrune := false } ["img-a", "img-b"]).2.Err =
        ["No such image: img-a\n"]) ∧
    ((runRemove demoCli { force := true, noPrune := false } ["img-e", "img-b", "img-a"]).1 =
        none ∧
      (runRemove demoCli { force := true, noPrune := false } ["img-e", "img-b", "img-a"]).2.Err =
        ["\nNo such image: img-a\n"]) ∧
    ((runRemove demoCli { force := false, noPrune := false } ["img-a", "img-b"]).1 =
        some "No such image: img-a" ∧
      (runRemove demoCli { force := false, noPrune := false } ["img-a", "img-b"]).2.Err = []) ∧
    ((runRemove demoCli { force := true, noPrune := false } ["img-a", "img-c"]).1 =
        some "No such image: img-a\nconflict: img-c is in use" ∧
      (runRemove demoCli { force := true, noPrune := false } ["img-a", "img-c"]).2.Err = []) ∧
    ((runRemove demoCli { force := true, noPrune := false } ["img-b", "img-d"]).1 = none ∧
      (runRemove demoCli { force := true, noPrune := false } ["img-b", "img-d"]).2.Err = []) := by
  refine ⟨?_, by decide, by decide, by decide, by decide, by decide⟩
  have hs := runRemove_spec dockerCLI opts images
  have he := hs.err_eq
  have hr := hs.ret_eq
  rw [failureMessages_map_result, hasFatal_eq_any] at he hr
  refine ⟨?_, hs.imgs_eq, hs.results_eq, ?_⟩
  · unfold errWritten
    rw [he]
    simp
  unfold errWritten
  rw [he]
  generalize (callsMade dockerCLI opts images).filterMap Call.err = fs at he hr ⊢
  rw [hr]
  have hall : (fs.all (fun e => e.IsNotFound) = true) ↔
      (fs.any (fun e => !e.IsNotFound) = false) := by
    induction fs with
    | nil => simp
    | cons a fs ih => cases h : a.IsNotFound <;> simp [h]
  rw [List.drop_left]
  cases hf : opts.force <;> cases hfs : fs <;>
    cases hb : (List.any fs fun e => !e.IsNotFound) <;> simp_all

/-- C4: every identifier is attempted exactly once, in input order, whatever
the remote answers: the calls added to the trace name exactly the input
list, and failed plus successful calls number as many as the identifiers. -/
theorem runRemove_calls_all {σ : Type} (dockerCLI : Cli σ) (opts : removeOptions)
    (images : List String) :
    (runRemove dockerCLI opts images).2.calls =
        dockerCLI.calls ++ callsMade dockerCLI opts images ∧
      (callsMade dockerCLI opts images).map Call.img = images ∧
      (callsMade dockerCLI opts images).length = images.length ∧
      ((callsMade dockerCLI opts images).filter (fun c => c.err.isSome)).length +
        ((callsMade dockerCLI opts images).filter (fun c => c.err.isNone)).length =
          images.length := by
  have hs := runRemove_spec dockerCLI opts images
  have hlen : (callsMade dockerCLI opts images).length = images.length := by
    have := congrArg List.length hs.imgs_eq
    simpa using this
  refine ⟨hs.calls_eq, hs.imgs_eq, hlen, ?_⟩
  rw [← hlen]
  generalize callsMade dockerCLI opts images = cs
  induction cs with
  | nil => simp
  | cons c cs ih =>
    cases hc : c.err <;> simp [List.filter_cons, hc] <;> omega

/-- C5: when every `ImageRemove` call succeeds, `runRemove` returns nil and
the output stream receives, after what it held before, exactly one line per
deletion record, the calls in input order of the identifiers and within a
call the records in the order returned: `Deleted: <Deleted>` and a newline
when `Deleted` is non-empty, otherwise `Untagged: <Untagged>` and a newline;
a record with both fields empty prints as `Untagged: ` and a newline. -/
theorem runRemove_all_succeed {σ : Type} (dockerCLI : Cli σ) (opts : removeOptions)
    (images : List String)
    (h : ∀ c ∈ callsMade dockerCLI opts images, c.err = none) :
    (runRemove dockerCLI opts images).1 = none ∧
      (callsMade dockerCLI opts images).map Call.img = images ∧
      (runRemove dockerCLI opts images).2.Out =
        dockerCLI.Out ++
          ((callsMade dockerCLI opts images).map (fun c => c.dels.map lineOf)).flatten ∧
      (∀ d : DeleteResponse, lineOf d =
        if d.Deleted ≠ "" then "Deleted: " ++ d.Deleted ++ "\n"
        else "Untagged: " ++ d.Untagged ++ "\n") ∧
      lineOf { Deleted := "", Untagged := "" } = "Untagged: \n" := by
  have hs := runRemove_spec dockerCLI opts images
  refine ⟨?_, hs.imgs_eq, ?_, fun d => rfl, by decide⟩
  · rw [hs.ret_eq, failureMessages_of_success _ h]
    simp
  · rw [hs.out_eq, outputLines_of_success _ h]

theorem runRemove_all_succeed_witness :
    (∀ c ∈ callsMade demoCli defaultOptions ["img-d", "img-u", "img-b"], c.err = none) ∧
      (runRemove demoCli defaultOptions ["img-d", "img-u", "img-b"]).1 = none ∧
      (runRemove demoCli defaultOptions ["img-d", "img-u", "img-b"]).2.Out =
        ["Untagged: img-d:latest\n", "Deleted: sha256:dd\n", "Untagged: \n",
          "Deleted: img-b\n"] :=
  ⟨by decide,
    (runRemove_all_succeed demoCli defaultOptions ["img-d", "img-u", "img-b"] (by decide)).1,
    (runRemove_all_succeed demoCli defaultOptions ["img-d", "img-u", "img-b"]
      (by decide)).2.2.1⟩

/-- C6, as stated, fails on a remote with a history.  Run without `force`
on `img-x`, `img-y`, the remote that fails its first call fails `img-x` and
deletes `img-y`, so the output is the line of `img-y`; with the failing
identifier absent the list is `img-y` alone, whose call is then the first
one and fails, so nothing is printed. -/
theorem runRemove_partial_progress_counterexample :
    (callsMade warmupCli { force := false, noPrune := false } ["img-x", "img-y"]).map
        (fun c => (c.img, c.err.isSome)) = [("img-x", true), ("img-y", false)] ∧
      (succeeded (callsMade warmupCli { force := false, noPrune := false }
        ["img-x", "img-y"])).map Call.img = ["img-y"] ∧
      (runRemove warmupCli { force := false, noPrune := false } ["img-x", "img-y"]).2.Out =
        ["Deleted: img-y\n"] ∧
      (runRemove warmupCli { force := false, noPrune := false } ["img-y"]).2.Out = [] ∧
      (runRemove warmupCli { force := false, noPrune := false } ["img-x", "img-y"]).2.Out ≠
        (runRemove warmupCli { force := false, noPrune := false }
          ((succeeded (callsMade warmupCli { force := false, noPrune := false }
            ["img-x", "img-y"])).map Call.img)).2.Out := by
  decide

/-- C6, amended: partial progress is reported even when the batch fails.  Run
without `force`, if some call fails (not-found included), every identifier
of the input list is still called, in order, and answered by the remote;
`runRemove` returns an error whose message contains that failure's text; and
the output stream receives, after what it held, exactly the lines of the
calls that succeeded, in input order.  That is the output of the run over
the list without the failing identifiers whenever the remote answers the
remaining identifiers there as it did in the full run. -/
theorem runRemove_partial_progress {σ : Type} (dockerCLI : Cli σ) (noPrune : Bool)
    (images : List String) (c : Call) (e : RemoteError)
    (hc : c ∈ callsMade dockerCLI { force := false, noPrune := noPrune } images)
    (he : c.err = some e) :
    (callsMade dockerCLI { force := false, noPrune := noPrune } images).map Call.img = images ∧
      (callsMade dockerCLI { force := false, noPrune := noPrune } images).map Call.result =
        answers dockerCLI.Client dockerCLI.remote
          { Force := false, PruneChildren := !noPrune } images ∧
      (∃ msg, (runRemove dockerCLI { force := false, noPrune := noPrune } images).1 = some msg ∧
        Contains msg e.Error) ∧
      (runRemove dockerCLI { force := false, noPrune := noPrune } images).2.Out =
        dockerCLI.Out ++
          ((succeeded (callsMade dockerCLI { force := false, noPrune := noPrune } images)).map
            (fun c => c.dels.map lineOf)).flatten ∧
      (answers dockerCLI.Client dockerCLI.remote { Force := false, PruneChildren := !noPrune }
          ((succeeded (callsMade dockerCLI { force := false, noPrune := noPrune } images)).map
            Call.img) =
        (succeeded (callsMade dockerCLI { force := false, noPrune := noPrune } images)).map
          Call.result →
        (runRemove dockerCLI { force := false, noPrune := noPrune }
          ((succeeded (callsMade dockerCLI { force := false, noPrune := noPrune } images)).map
            Call.img)).2.Out =
          (runRemove dockerCLI { force := false, noPrune := noPrune } images).2.Out) := by
  have hs := runRemove_spec dockerCLI { force := false, noPrune := noPrune } images
  generalize callsMade dockerCLI { force := false, noPrune := noPrune } images = cs at hs hc
  have hne : failureMessages (cs.map Call.result) ≠ [] :=
    (failureMessages_ne_nil_iff cs).2 ⟨c, hc, by simp [he]⟩
  have hmem : e.Error ∈ failureMessages (cs.map Call.result) := by
    rw [failureMessages_map_result]
    exact List.mem_map.2 ⟨e, List.mem_filterMap.2 ⟨c, hc, he⟩, rfl⟩
  have hout : (runRemove dockerCLI { force := false, noPrune := noPrune } images).2.Out =
      dockerCLI.Out ++ ((succeeded cs).map (fun c => c.dels.map lineOf)).flatten := by
    rw [hs.out_eq, ← outputLines_succeeded, outputLines_of_success _ (succeeded_err cs)]
  refine ⟨hs.imgs_eq, hs.results_eq, ⟨_, ?_, contains_intercalate "\n" _ _ hmem⟩, hout, ?_⟩
  · rw [hs.ret_eq]
    simp [hne]
  · intro hstable
    have hr := runRemove_spec dockerCLI { force := false, noPrune := noPrune }
      ((succeeded cs).map Call.img)
    have hres := hr.results_eq
    rw [hstable] at hres
    rw [hr.out_eq, hres, hs.out_eq, outputLines_succeeded]

theorem runRemove_partial_progress_witness :
    (({ img := "img-a", options := { Force := false, PruneChildren := true }, dels := [],
        err := some { Error := "No such image: img-a", IsNotFound := true } } : Call) ∈
        callsMade demoCli { force := false, noPrune := false } ["img-a", "img-b"] ∧
      (∃ msg, (runRemove demoCli { force := false, noPrune := false } ["img-a", "img-b"]).1 =
          some msg ∧ Contains msg "No such image: img-a") ∧
      (runRemove demoCli { force := false, noPrune := false } ["img-a", "img-b"]).2.Out =
        ["Deleted: img-b\n"] ∧
      (runRemove demoCli { force := false, noPrune := false } ["img-b"]).2.Out =
        (runRemove demoCli { force := false, noPrune := false } ["img-a", "img-b"]).2.Out) ∧
    (({ img := "img-c", options := { Force := false, PruneChildren := true },
        dels := [{ Deleted := "sha256:cc", Untagged := "" }],
        err := some { Error := "conflict: img-c is in use", IsNotFound := false } } : Call) ∈
        callsMade demoCli { force := false, noPrune := false } ["img-c", "img-d", "img-a", "img-b"] ∧
      (callsMade demoCli { force := false, noPrune := false }
          ["img-c", "img-d", "img-a", "img-b"]).map Call.img =
        ["img-c", "img-d", "img-a", "img-b"] ∧
      (∃ msg, (runRemove demoCli { force := false, noPrune := false }
          ["img-c", "img-d", "img-a", "img-b"]).1 = some msg ∧
        Contains msg "conflict: img-c is in use") ∧
      (runRemove demoCli { force := false, noPrune := false }
          ["img-c", "img-d", "img-a", "img-b"]).2.Out =
        ["Untagged: img-d:latest\n", "Deleted: sha256:dd\n", "Deleted: img-b\n"] ∧
      (runRemove demoCli { force := false, noPrune := false } ["img-d", "img-b"]).2.Out =
        (runRemove demoCli { force := false, noPrune := false }
          ["img-c", "img-d", "img-a", "img-b"]).2.Out) :=
  ⟨⟨by decide,
    (runRemove_partial_progress demoCli false ["img-a", "img-b"]
      { img := "img-a", options := { Force := false, PruneChildren := true }, dels := [],
        err := some { Error := "No such image: img-a", IsNotFound := true } }
      { Error := "No such image: img-a", IsNotFound := true } (by decide) rfl).2.2.1,
    (runRemove_partial_progress demoCli false ["img-a", "img-b"]
      { img := "img-a", options := { Force := false, PruneChildren := true }, dels := [],
        err := some { Error := "No such image: img-a", IsNotFound := true } }
      { Error := "No such image: img-a", IsNotFound := true } (by decide) rfl).2.2.2.1,
    (runRemove_partial_progress demoCli false ["img-a", "img-b"]
      { img := "img-a", options := { Force := false, PruneChildren := true }, dels := [],
        err := some { Error := "No such image: img-a", IsNotFound := true } }
      { Error := "No such image: img-a", IsNotFound := true } (by decide) rfl).2.2.2.2
      (by decide)⟩,
   ⟨by decide,
    (runRemove_partial_progress demoCli false ["img-c", "img-d", "img-a", "img-b"]
      { img := "img-c", options := { Force := false, PruneChildren := true },
        dels := [{ Deleted := "sha256:cc", Untagged := "" }],
        err := some { Error := "conflict: img-c is in use", IsNotFound := false } }
      { Error := "conflict: img-c is in use", IsNotFound := false } (by decide) rfl).1,
    (runRemove_partial_progress demoCli false ["img-c", "img-d", "img-a", "img-b"]
      { img := "img-c", options := { Force := false, PruneChildren := true },
        dels := [{ Deleted := "sha256:cc", Untagged := "" }],
        err := some { Error := "conflict: img-c is in use", IsNotFound := false } }
      { Error := "conflict: img-c is in use", IsNotFound := false } (by decide) rfl).2.2.1,
    (runRemove_partial_progress demoCli false ["img-c", "img-d", "img-a", "img-b"]
      { img := "img-c", options := { Force := false, PruneChildren := true },
        dels := [{ Deleted := "sha256:cc", Untagged := "" }],
        err := some { Error := "conflict: img-c is in use", IsNotFound := false } }
      { Error := "conflict: img-c is in use", IsNotFound := false } (by decide) rfl).2.2.2.1,
    (runRemove_partial_progress demoCli false ["img-c", "img-d", "img-a", "img-b"]
      { img := "img-c", options := { Force := false, PruneChildren := true },
        dels := [{ Deleted := "sha256:cc", Untagged := "" }],
        err := some { Error := "conflict: img-c is in use", IsNotFound := false } }
      { Error := "conflict: img-c is in use", IsNotFound := false } (by decide) rfl).2.2.2.2
      (by decide)⟩⟩

/-- C7: every `ImageRemove` call of one invocation receives the same options
record, `Force` equal to `opts.force` and `PruneChildren` equal to the
negation of `opts.noPrune`; with the registered flag defaults that is
`Force = false`, `PruneChildren = true`. -/
theorem runRemove_options {σ : Type} (dockerCLI : Cli σ) (opts : removeOptions)
    (images : List String) :
    (callsMade dockerCLI opts images).map Call.options =
        List.replicate images.length
          { Force := opts.force, PruneChildren := !opts.noPrune } ∧
      (callsMade dockerCLI defaultOptions images).map Call.options =
        List.replicate images.length { Force := false, PruneChildren := true } :=
  ⟨(runRemove_spec dockerCLI opts images).options_eq,
    (runRemove_spec dockerCLI defaultOptions images).options_eq⟩

/-- The result and the writes of a run are functions of the options and of
the answers received. -/
theorem runRemove_of_results {σ : Type} (dockerCLI : Cli σ) (opts : removeOptions)
    (images : List String) :
    (runRemove dockerCLI opts images).1 =
        (if failureMessages (resultsSeen dockerCLI opts images) ≠ [] ∧
            (opts.force = false ∨ hasFatal (resultsSeen dockerCLI opts images) = true)
          then some ("\n".intercalate (failureMessages (resultsSeen dockerCLI opts images)))
          else none) ∧
      outWritten dockerCLI opts images = outputLines (resultsSeen dockerCLI opts images) ∧
      errWritten dockerCLI opts images =
        (if failureMessages (resultsSeen dockerCLI opts images) ≠ [] ∧
            ¬ (opts.force = false ∨ hasFatal (resultsSeen dockerCLI opts images) = true)
          then ["\n".intercalate (failureMessages (resultsSeen dockerCLI opts images)) ++ "\n"]
          else []) ∧
      resultsSeen dockerCLI opts images = answers dockerCLI.Client dockerCLI.remote
        { Force := opts.force, PruneChildren := !opts.noPrune } images := by
  have hs := runRemove_spec dockerCLI opts images
  refine ⟨hs.ret_eq, ?_, ?_, hs.results_eq⟩
  · unfold outWritten
    rw [hs.out_eq, List.drop_left]
    rfl
  · unfold errWritten
    rw [hs.err_eq, List.drop_left]
    rfl

/-- C8: `runRemove` is deterministic in its inputs.  Two invocations with the
same identifiers and options, in any two worlds (different stream contents,
different earlier calls, even different remotes) whose remotes give the same
answers to the calls, return the same result and write the same text to the
output stream and to the error stream, each after what the stream held. -/
theorem runRemove_deterministic {σ₁ σ₂ : Type} (cli₁ : Cli σ₁) (cli₂ : Cli σ₂)
    (opts : removeOptions) (images : List String)
    (h : answers cli₁.Client cli₁.remote
          { Force := opts.force, PruneChildren := !opts.noPrune } images =
        answers cli₂.Client cli₂.remote
          { Force := opts.force, PruneChildren := !opts.noPrune } images) :
    (runRemove cli₁ opts images).1 = (runRemove cli₂ opts images).1 ∧
      outWritten cli₁ opts images = outWritten cli₂ opts images ∧
      errWritten cli₁ opts images = errWritten cli₂ opts images ∧
      (runRemove cli₁ opts images).2.Out = cli₁.Out ++ outWritten cli₁ opts images ∧
      (runRemove cli₁ opts images).2.Err = cli₁.Err ++ errWritten cli₁ opts images ∧
      (runRemove cli₂ opts images).2.Out = cli₂.Out ++ outWritten cli₂ opts images ∧
      (runRemove cli₂ opts images).2.Err = cli₂.Err ++ errWritten cli₂ opts images := by
  obtain ⟨r1, o1, e1, a1⟩ := runRemove_of_results cli₁ opts images
  obtain ⟨r2, o2, e2, a2⟩ := runRemove_of_results cli₂ opts images
  have hres : resultsSeen cli₁ opts images = resultsSeen cli₂ opts images := by
    rw [a1, a2, h]
  have s1 := runRemove_spec cli₁ opts images
  have s2 := runRemove_spec cli₂ opts images
  refine ⟨?_, ?_, ?_, ?_, ?_, ?_, ?_⟩
  · rw [r1, r2, hres]
  · rw [o1, o2, hres]
  · rw [e1, e2, hres]
  · rw [o1]; exact s1.out_eq
  · rw [e1]; exact s1.err_eq
  · rw [o2]; exact s2.out_eq
  · rw [e2]; exact s2.err_eq

theorem runRemove_deterministic_witness :
    answers demoCli.Client demoCli.remote { Force := true, PruneChildren := !false }
        ["img-a", "img-d", "img-e"] =
      answers (runRemove demoCli { force := true, noPrune := false }
          ["img-a", "img-d", "img-e"]).2.Client
        (runRemove demoCli { force := true, noPrune := false }
          ["img-a", "img-d", "img-e"]).2.remote
        { Force := true, PruneChildren := !false } ["img-a", "img-d", "img-e"] ∧
      (runRemove demoCli { force := true, noPrune := false } ["img-a", "img-d", "img-e"]).1 =
        (runRemove
          (runRemove demoCli { force := true, noPrune := false } ["img-a", "img-d", "img-e"]).2
          { force := true, noPrune := false } ["img-a", "img-d", "img-e"]).1 ∧
      outWritten demoCli { force := true, noPrune := false } ["img-a", "img-d", "img-e"] =
        outWritten
          (runRemove demoCli { force := true, noPrune := false } ["img-a", "img-d", "img-e"]).2
          { force := true, noPrune := false } ["img-a", "img-d", "img-e"] ∧
      errWritten demoCli { force := true, noPrune := false } ["img-a", "img-d", "img-e"] =
        errWritten
          (runRemove demoCli { force := true, noPrune := false } ["img-a", "img-d", "img-e"]).2
          { force := true, noPrune := false } ["img-a", "img-d", "img-e"] :=
  ⟨by decide,
    (runRemove_deterministic demoCli
      (runRemove demoCli { force := true, noPrune := false } ["img-a", "img-d", "img-e"]).2
      { force := true, noPrune := false } ["img-a", "img-d", "img-e"] (by decide)).1,
    (runRemove_deterministic demoCli
      (runRemove demoCli { force := true, noPrune := false } ["img-a", "img-d", "img-e"]).2
      { force := true, noPrune := false } ["img-a", "img-d", "img-e"] (by decide)).2.1,
    (runRemove_deterministic demoCli
      (runRemove demoCli { force := true, noPrune := false } ["img-a", "img-d", "img-e"]).2
      { force := true, noPrune := false } ["img-a", "img-d", "img-e"] (by decide)).2.2.1⟩

/-- C9: a failed `ImageRemove` call contributes nothing to the output stream.
In any iteration of the loop, if the call returns a non-nil error, with
whatever list of deletion records next to it, the iteration leaves the
output stream and the error stream as they were and appends exactly one
entry, the error's message, to the recorded messages; over a whole run the
output is the lines of the successful calls only, and the loop records one
message per failed call. -/
theorem loopBody_failed_call {σ : Type} (options : RemoveOptions) (st : LoopState σ)
    (img : String) (dels : List DeleteResponse) (e : RemoteError)
    (opts : removeOptions) (images : List String)
    (h : (ImageRemove st.dockerCLI img options).1 = (dels, some e)) :
    (loopBody options st img).dockerCLI.Out = st.dockerCLI.Out ∧
      (loopBody options st img).dockerCLI.Err = st.dockerCLI.Err ∧
      (loopBody options st img).errs = st.errs ++ [e.Error] ∧
      (loopBody options st img).dockerCLI.calls =
        st.dockerCLI.calls ++ [{ img := img, options := options, dels := dels, err := some e }] ∧
      outWritten st.dockerCLI opts images =
        ((callsMade st.dockerCLI opts images).map
          (fun c => if c.err.isSome then [] else c.dels.map lineOf)).flatten ∧
      (removeLoop st.dockerCLI { Force := opts.force, PruneChildren := !opts.noPrune }
          images).errs.length =
        ((callsMade st.dockerCLI opts images).filter (fun c => c.err.isSome)).length := by
  refine ⟨?_, ?_, ?_, ?_, ?_, ?_⟩
  · simp only [ImageRemove] at h
    simp [loopBody, ImageRemove, h]
  · simp only [ImageRemove] at h
    simp [loopBody, ImageRemove, h]
  · simp only [ImageRemove] at h
    simp [loopBody, ImageRemove, h]
  · simp only [ImageRemove] at h
    simp [loopBody, ImageRemove, h]
  · rw [(runRemove_of_results st.dockerCLI opts images).2.1, resultsSeen]
    generalize callsMade st.dockerCLI opts images = cs
    induction cs with
    | nil => simp [outputLines]
    | cons c cs ih =>
      obtain ⟨i, o, d, e⟩ := c
      cases e with
      | none => simp [Call.result, outputLines_cons_none, ih]
      | some e => simp [Call.result, outputLines_cons_some, ih]
  · obtain ⟨cs, hl⟩ := foldl_loopBody_spec
      { Force := opts.force, PruneChildren := !opts.noPrune } images
      { errs := [], fatalErr := false, dockerCLI := st.dockerCLI }
    have hs := runRemove_spec st.dockerCLI opts images
    have hcs : callsMade st.dockerCLI opts images = cs := by
      have h1 := hs.calls_eq
      have h2 : (runRemove st.dockerCLI opts images).2.calls = st.dockerCLI.calls ++ cs := by
        have := hl.calls_eq
        simp only [runRemove, removeLoop]
        split <;> [split; skip] <;> simpa using this
      exact List.append_cancel_left (h1.symm.trans h2)
    rw [hcs]
    have he := hl.errs_eq
    simp only [List.nil_append] at he
    rw [removeLoop, he, failureMessages_map_result, List.length_map]
    clear hl hs hcs he
    induction cs with
    | nil => simp
    | cons c cs ih =>
      cases hc : c.err <;> simp [List.filterMap_cons, List.filter_cons, hc, ih]

theorem loopBody_failed_call_witness :
    (ImageRemove demoCli "img-c" { Force := true, PruneChildren := true }).1 =
        ([{ Deleted := "sha256:cc", Untagged := "" }],
          some { Error := "conflict: img-c is in use", IsNotFound := false }) ∧
      (loopBody { Force := true, PruneChildren := true }
        { errs := ["earlier"], fatalErr := false, dockerCLI := demoCli } "img-c").dockerCLI.Out =
          [] ∧
      (loopBody { Force := true, PruneChildren := true }
        { errs := ["earlier"], fatalErr := false, dockerCLI := demoCli } "img-c").errs =
          ["earlier", "conflict: img-c is in use"] :=
  ⟨by decide,
    (loopBody_failed_call { Force := true, PruneChildren := true }
      { errs := ["earlier"], fatalErr := false, dockerCLI := demoCli } "img-c"
      [{ Deleted := "sha256:cc", Untagged := "" }]
      { Error := "conflict: img-c is in use", IsNotFound := false }
      defaultOptions [] (by decide)).1,
    (loopBody_failed_call { Force := true, PruneChildren := true }
      { errs := ["earlier"], fatalErr := false, dockerCLI := demoCli } "img-c"
      [{ Deleted := "sha256:cc", Untagged := "" }]
      { Error := "conflict: img-c is in use", IsNotFound := false }
      defaultOptions [] (by decide)).2.2.1⟩

/-- C10: the `force` flag only relaxes the outcome.  For the same identifiers
and the same answers from the remote, if the run without `force` returns nil
then so does the run with `force`; both runs write the same text to the
output stream; and whenever both return an error the messages are equal. -/
theorem runRemove_force_relaxes {σ₁ σ₂ : Type} (cli₁ : Cli σ₁) (cli₂ : Cli σ₂)
    (noPrune : Bool) (images : List String)
    (h : answers cli₁.Client cli₁.remote { Force := false, PruneChildren := !noPrune } images =
        answers cli₂.Client cli₂.remote { Force := true, PruneChildren := !noPrune } images) :
    ((runRemove cli₁ { force := false, noPrune := noPrune } images).1 = none →
        (runRemove cli₂ { force := true, noPrune := noPrune } images).1 = none) ∧
      outWritten cli₁ { force := false, noPrune := noPrune } images =
        outWritten cli₂ { force := true, noPrune := noPrune } images ∧
      (∀ m₁ m₂ : String,
        (runRemove cli₁ { force := false, noPrune := noPrune } images).1 = some m₁ →
        (runRemove cli₂ { force := true, noPrune := noPrune } images).1 = some m₂ →
        m₁ = m₂) := by
  obtain ⟨r1, o1, _, a1⟩ := runRemove_of_results cli₁ { force := false, noPrune := noPrune } images
  obtain ⟨r2, o2, _, a2⟩ := runRemove_of_results cli₂ { force := true, noPrune := noPrune } images
  have hres : resultsSeen cli₁ { force := false, noPrune := noPrune } images =
      resultsSeen cli₂ { force := true, noPrune := noPrune } images := by
    rw [a1, a2]
    exact h
  rw [r1, r2, o1, o2, hres]
  generalize resultsSeen cli₂ { force := true, noPrune := noPrune } images = rs
  refine ⟨?_, rfl, ?_⟩
  · intro h0
    by_cases hne : failureMessages rs = []
    · simp [hne]
    · simp [hne] at h0
  · intro m₁ m₂ h1 h2
    by_cases hne : failureMessages rs = []
    · simp [hne] at h1
    · by_cases hf : hasFatal rs = true
      · simp [hne, hf] at h1 h2
        rw [← h1, ← h2]
      · simp [hne, hf] at h2

theorem runRemove_force_relaxes_witness :
    answers demoCli.Client demoCli.remote { Force := false, PruneChildren := !false }
        ["img-a", "img-c", "img-b"] =
      answers demoCli.Client demoCli.remote { Force := true, PruneChildren := !false }
        ["img-a", "img-c", "img-b"] ∧
      (runRemove demoCli { force := false, noPrune := false } ["img-a", "img-c", "img-b"]).1 =
        some "No such image: img-a\nconflict: img-c is in use" ∧
      (runRemove demoCli { force := true, noPrune := false } ["img-a", "img-c", "img-b"]).1 =
        some "No such image: img-a\nconflict: img-c is in use" ∧
      outWritten demoCli { force := false, noPrune := false } ["img-a", "img-c", "img-b"] =
        outWritten demoCli { force := true, noPrune := false } ["img-a", "img-c", "img-b"] :=
  ⟨by decide, by decide, by decide,
    (runRemove_force_relaxes demoCli demoCli false ["img-a", "img-c", "img-b"]
      (by decide)).2.1⟩

end Image
